import Mathlib

/-!
Verification of the d-logger repository (src/lib/logger.ts): a shallow
embedding of its message interpolator (`format`), formatters, fallback
chain, option validation, level accessor and caller-lookup logic, with
theorems checking the specification's claims against it.

JavaScript values are modelled by the inductive `JSValue`: numbers are
integer-valued (the repository's own behaviour is specified and tested on
integers only), objects are association lists of entries in insertion
order, and a boolean flag marks an object as circular (self-referential),
which is the one way `JSON.stringify` can throw on data in this code base.
-/

namespace DLogger

inductive JSValue where
  | vnull
  | vundef
  | vbool (b : Bool)
  | vnum (n : Int)
  | vstr (s : String)
  | varr (elems : List JSValue)
  | vobj (entries : List (String × JSValue)) (circular : Bool)
open JSValue

def JSValue.isUndef : JSValue → Bool
  | vundef => true
  | _ => false

/-- JavaScript `typeof` on the embedded universe (`typeof null` is "object"). -/
def jsTypeof : JSValue → String
  | vnull => "object"
  | vundef => "undefined"
  | vbool _ => "boolean"
  | vnum _ => "number"
  | vstr _ => "string"
  | varr _ => "object"
  | vobj _ _ => "object"

mutual

/-- JavaScript `String(v)` coercion: arrays join their elements with commas,
objects render as the literal text `[object Object]`. -/
def jsString : JSValue → String
  | vnull => "null"
  | vundef => "undefined"
  | vbool b => cond b "true" "false"
  | vnum n => toString n
  | vstr s => s
  | varr xs => jsArrayJoin "," xs
  | vobj _ _ => "[object Object]"

/-- JavaScript `Array.prototype.join(sep)`: a null or undefined element
renders as the empty string, any other element by its `String(...)`
coercion. -/
def jsArrayJoin (sep : String) : List JSValue → String
  | [] => ""
  | [x] =>
      (match x with
       | vnull => ""
       | vundef => ""
       | v => jsString v)
  | x :: y :: rest =>
      (match x with
       | vnull => ""
       | vundef => ""
       | v => jsString v) ++ sep ++ jsArrayJoin sep (y :: rest)

end

/-- The escaping `JSON.stringify` applies inside a JSON string literal,
restricted to the backslash and the double quote (control characters do not
occur in the inputs considered here). -/
def jsonEscapeChar (c : Char) : String :=
  if c = '"' then "\\\"" else if c = '\\' then "\\\\" else String.singleton c

def jsonQuote (s : String) : String :=
  "\"" ++ String.join (s.toList.map jsonEscapeChar) ++ "\""

mutual

/-- JavaScript `JSON.stringify(v)` (compact). `none` models a thrown
`TypeError` (a circular structure) or, for a top-level `undefined`, the
non-string result `undefined`. -/
def jsonStringify : JSValue → Option String
  | vnull => some "null"
  | vundef => none
  | vbool b => some (cond b "true" "false")
  | vnum n => some (toString n)
  | vstr s => some (jsonQuote s)
  | varr xs => (jsonArrBody xs).map (fun s => "[" ++ s ++ "]")
  | vobj kvs c =>
      if c then none
      else (jsonObjBody kvs).map
        (fun ms => "\x7b" ++ String.intercalate "," ms ++ "\x7d")

/-- Array elements, comma separated: an undefined element serializes as
`null`. -/
def jsonArrBody : List JSValue → Option String
  | [] => some ""
  | [x] =>
      (match x with
       | vundef => some "null"
       | v => jsonStringify v)
  | x :: y :: rest =>
      match
        (match x with
         | vundef => some "null"
         | v => jsonStringify v),
        jsonArrBody (y :: rest) with
      | some h, some t => some (h ++ "," ++ t)
      | _, _ => none

/-- Object members in insertion order; a member whose value is undefined is
omitted entirely. -/
def jsonObjBody : List (String × JSValue) → Option (List String)
  | [] => some []
  | (k, v) :: rest =>
      if v.isUndef then jsonObjBody rest
      else
        match jsonStringify v, jsonObjBody rest with
        | some sv, some ms => some ((jsonQuote k ++ ":" ++ sv) :: ms)
        | _, _ => none

end

/-- Numeric-string parsing for `Number(string)`: the embedded universe
restricts numeric strings to optionally negated decimal integers; the
blank string coerces to 0, anything else to NaN (`none`). -/
def parseJSNumber (s : String) : Option Int :=
  let t := s.trim
  if t = "" then some 0
  else
    match t.toNat? with
    | some n => some (n : Int)
    | none =>
        if t.startsWith "-" then ((t.drop 1).toNat?).map (fun n => -(n : Int))
        else none

/-- JavaScript `Number(v)` (`none` is NaN): an array coerces through its
string form. -/
def jsNumber : JSValue → Option Int
  | vnull => some 0
  | vundef => none
  | vbool b => some (cond b 1 0)
  | vnum n => some n
  | vstr s => parseJSNumber s
  | varr xs => parseJSNumber (jsString (varr xs))
  | vobj _ _ => none

/-- `String(Number(arg))`: NaN renders as the text `NaN`. -/
def numDisplay : Option Int → String
  | some n => toString n
  | none => "NaN"

/-- The `%s` branch of `format` (src/lib/logger.ts lines 63-85): array in
bracket form joining `arg.join(", ")`, plain object in brace form with
string values single-quoted, other values by `String(...)` coercion. The
identical code block renders trailing unconsumed arguments (lines 117-133). -/
def displaySValue : JSValue → String
  | vnull => "null"
  | vundef => "undefined"
  | varr xs => "[ " ++ jsArrayJoin ", " xs ++ " ]"
  | vobj kvs _ =>
      "\x7b " ++
        String.intercalate ", "
          (kvs.map (fun kv =>
            kv.1 ++ ": " ++
              (match kv.2 with
               | vstr s => "'" ++ s ++ "'"
               | v => jsString v))) ++ " \x7d"
  | v => jsString v

/-- The `%d` branch: null renders as 0, undefined as NaN, else
`String(Number(arg))`. -/
def renderD : JSValue → String
  | vnull => "0"
  | vundef => "NaN"
  | a => numDisplay (jsNumber a)

/-- The `%i` branch: `parseInt(String(Number(arg)), 10)`; on the
integer-valued universe `parseInt` returns the number unchanged and
`parseInt("NaN")` is NaN. -/
def renderI : JSValue → String
  | vnull => "0"
  | vundef => "NaN"
  | a => numDisplay (jsNumber a)

/-- The `%f` branch: `parseFloat(String(Number(arg)))`; identity on the
integer-valued universe, NaN for NaN. -/
def renderF : JSValue → String
  | vnull => "0"
  | vundef => "NaN"
  | a => numDisplay (jsNumber a)

/-- The `%j` branch: compact JSON, the literal text `[Circular]` when
`JSON.stringify` throws. A top-level undefined yields no string result and
the replacement callback coerces it to the text `undefined`. -/
def renderJ : JSValue → String
  | vundef => "undefined"
  | a => (jsonStringify a).getD "[Circular]"

/-- The display form of the plain-join branch of `format` (lines 33-44):
objects and arrays go through `JSON.stringify(arg, null, 0)` with
`[object Object]` on failure, other values through `String(...)`. -/
def plainJoinDisplay : JSValue → String
  | vnull => "null"
  | vundef => "undefined"
  | varr xs => (jsonStringify (varr xs)).getD "[object Object]"
  | vobj kvs c => (jsonStringify (vobj kvs c)).getD "[object Object]"
  | v => jsString v

def isSpecChar (c : Char) : Bool :=
  c = 's' || c = 'd' || c = 'i' || c = 'f' || c = 'j'

def renderSpec (c : Char) (a : JSValue) : String :=
  if c = 's' then displaySValue a
  else if c = 'd' then renderD a
  else if c = 'i' then renderI a
  else if c = 'f' then renderF a
  else renderJ a

/-- The `f.replace(/%[sdifj%]/g, ...)` pass of `format`: scan the template
left to right for a percent sign followed by one of `sdifj%`; `pp` is the
precomputed replacement for a `%%` match, `i` the index of the next
unconsumed argument. Returns the rewritten text and the final index. -/
def scanFmt (pp : String) (args : List JSValue) : List Char → Nat → String × Nat
  | [], i => ("", i)
  | c :: rest, i =>
      if c = '%' then
        match rest with
        | [] => ("%", i)
        | c2 :: rest2 =>
            if c2 = '%' then
              let r := scanFmt pp args rest2 i
              (pp ++ r.1, r.2)
            else if isSpecChar c2 then
              if args.length ≤ i then
                let r := scanFmt pp args rest2 i
                ("%" ++ String.singleton c2 ++ r.1, r.2)
              else
                let r := scanFmt pp args rest2 (i + 1)
                (renderSpec c2 (args.getD i vundef) ++ r.1, r.2)
            else
              let r := scanFmt pp args (c2 :: rest2) i
              ("%" ++ r.1, r.2)
      else
        let r := scanFmt pp args rest i
        (String.singleton c ++ r.1, r.2)

/-- The `%%` replacement chosen once per call: with no extra arguments at
all `%%` stays `%%`, otherwise it collapses to `%`. -/
def ppOf (args : List JSValue) : String :=
  if args.length = 0 then "%%" else "%"

/-- The native util.format reimplementation (src/lib/logger.ts lines
30-138). -/
def format (f : JSValue) (args : List JSValue) : String :=
  match f with
  | vstr t =>
      let r := scanFmt (ppOf args) args t.toList 0
      let remaining := args.drop r.2
      if remaining.length > 0 then
        r.1 ++ " " ++ String.intercalate " " (remaining.map displaySValue)
      else r.1
  | _ =>
      String.intercalate " " ((f :: args).map plainJoinDisplay)

/-! ### Logger core: configuration, validation, formatters, caller lookup -/

/-- A stack frame as exposed by the V8 structured stack API. -/
structure StackFrame where
  fileName : String
  lineNumber : Nat

/-- A value of the process-global `Error.prepareStackTrace` hook: absent, a
user-installed function (identified abstractly), or the function that
`getCallerInfo` installs for the duration of its stack inspection. -/
inductive PrepareHook where
  | undef
  | userHook (id : Nat)
  | loggerHook

/-- Process-global state touched by `getCallerInfo`. -/
structure GState where
  prepareStackTrace : PrepareHook

/-- The log entry record (`LogEntry` in the source). `levelNumber` is the
table lookup of the level name (undefined when absent), caller fields are
present only when attached, `extra` holds fields appended later by the
fallback chain (in insertion order after the base and caller fields). -/
structure LogEntry where
  level : String
  levelNumber : Option Int
  time : String
  pid : Nat
  hostname : String
  msg : String
  callerFile : Option String
  callerLine : Option Nat
  extra : List (String × JSValue)

def optIntJS : Option Int → JSValue
  | some n => vnum n
  | none => vundef

def optStrJS : Option String → JSValue
  | some s => vstr s
  | none => vundef

def optNatJS : Option Nat → JSValue
  | some n => vnum (n : Int)
  | none => vundef

/-- The JavaScript object a `LogEntry` denotes: base fields, then the
caller fields when attached, then any appended extra fields. -/
def entryToJS (e : LogEntry) : JSValue :=
  vobj
    ([("level", vstr e.level), ("levelNumber", optIntJS e.levelNumber),
      ("time", vstr e.time), ("pid", vnum (e.pid : Int)),
      ("hostname", vstr e.hostname), ("msg", vstr e.msg)] ++
      (match e.callerFile, e.callerLine with
       | some cf, some cl => [("callerFile", vstr cf), ("callerLine", vnum (cl : Int))]
       | _, _ => []) ++ e.extra)
    false

/-- The quote replacement applied to the message in both hand-built
fallback strings: the source calls `.replace` with the global regex
matching a double quote and a replacement string that contains exactly a
double quote (its escape is useless), so each quote is replaced by itself. -/
def quoteReplace (s : String) : String :=
  String.join (s.toList.map (fun c => if c = '"' then "\"" else String.singleton c))

/-- The platform message of the TypeError thrown by `JSON.stringify` on a
circular structure, modelled abstractly (V8 wording). -/
def circularErrMsg : String := "Converting circular structure to JSON"

/-- The safe subset object built inside `jsonFormatter` on a first
serialization failure (src/lib/logger.ts lines 543-557): known scalar
fields only plus a `jsonError` diagnostic; the appended extra fields are
dropped. -/
def safeEntryJS (e : LogEntry) (emsg : String) : JSValue :=
  vobj
    [("level", vstr e.level), ("levelNumber", optIntJS e.levelNumber),
     ("time", vstr e.time), ("pid", vnum (e.pid : Int)),
     ("hostname", vstr e.hostname), ("msg", vstr e.msg),
     ("callerFile", optStrJS e.callerFile), ("callerLine", optNatJS e.callerLine),
     ("jsonError", vstr ("JSON stringify failed: " ++ emsg))]
    false

/-- The JSON log formatter (src/lib/logger.ts lines 537-568): stringify the
entry; on failure stringify the safe subset; on a second failure hand-build
a JSON-shaped string from level and message. -/
def jsonFormatter (e : LogEntry) : String :=
  match jsonStringify (entryToJS e) with
  | some s => s
  | none =>
      match jsonStringify (safeEntryJS e circularErrMsg) with
      | some s => s
      | none =>
          "\x7b\"level\":\"" ++ e.level ++ "\",\"msg\":\"" ++
            quoteReplace e.msg ++ "\",\"jsonError\":\"Multiple JSON errors occurred\"\x7d"

/-- `String.prototype.padEnd` to width `n` with spaces. -/
def padEnd (s : String) (n : Nat) : String :=
  s ++ String.mk (List.replicate (n - s.length) ' ')

/-- `path.split("/").pop()`. -/
def basename (p : String) : String :=
  (p.splitOn "/").getLastD ""

/-- Template-literal coercion of a possibly-undefined line number. -/
def optNatDisplay : Option Nat → String
  | some n => toString n
  | none => "undefined"

/-- The simple text formatter (src/lib/logger.ts lines 571-580). A present
but empty `callerFile` is falsy in the source, so it also omits the caller
segment. -/
def simpleFormatter (e : LogEntry) : String :=
  let levelPadded := padEnd e.level.toUpper 5
  let caller : Option String :=
    match e.callerFile with
    | some cf =>
        if cf = "" then none
        else some (basename cf ++ ":" ++ optNatDisplay e.callerLine)
    | none => none
  match caller with
  | some c => "[" ++ e.time ++ "] [" ++ levelPadded ++ "] [" ++ c ++ "] " ++ e.msg
  | none => "[" ++ e.time ++ "] [" ++ levelPadded ++ "] " ++ e.msg

/-- Outcome of invoking a (possibly user-replaced) formatter: a returned
string, a returned non-string value, or a thrown error with its message. -/
inductive FmtResult where
  | ok (s : String)
  | retval (v : JSValue)
  | thrown (msg : String)

/-- The formatters registry (`this.formatters`): the json and simple slots,
either possibly replaced by the user after construction. -/
structure Registry where
  json : LogEntry → FmtResult
  simple : LogEntry → FmtResult

def builtinRegistry : Registry :=
  { json := fun e => .ok (jsonFormatter e),
    simple := fun e => .ok (simpleFormatter e) }

/-- `this.formatters[this.options.format] || this.formatters.json`. -/
def selectFormatter (reg : Registry) (fmt : String) : LogEntry → FmtResult :=
  if fmt = "json" then reg.json
  else if fmt = "simple" then reg.simple
  else reg.json

/-- The error message captured by the catch in `log` (lines 671-688): the
thrown message, or the message of the Error thrown on a non-string return. -/
def fmtErrMsg : FmtResult → String
  | .ok _ => ""
  | .retval v => "Formatter returned " ++ jsTypeof v ++ " instead of string"
  | .thrown m => m

/-- The fail-safe render chain of `log` (src/lib/logger.ts lines 670-704):
try the selected formatter and require a string; on failure call the
registry json slot on the entry plus a `formatterError` field; if that
throws too, hand-build a minimal JSON-shaped string (a non-string second
result reaches `console.log` unchecked, modelled by its string coercion). -/
def failSafeRender (reg : Registry) (fmt : String) (e : LogEntry) : String :=
  match selectFormatter reg fmt e with
  | .ok s => s
  | bad =>
      let emsg := fmtErrMsg bad
      let safeEntry : LogEntry :=
        { e with extra := e.extra ++ [("formatterError", vstr ("Formatter failed: " ++ emsg))] }
      match reg.json safeEntry with
      | .ok s => s
      | .retval v => jsString v
      | .thrown _ =>
          "\x7b\"level\":\"" ++ e.level ++ "\",\"msg\":\"" ++
            quoteReplace e.msg ++ "\",\"formatterError\":\"Formatter failed: " ++ emsg ++ "\"\x7d"

/-! ### Caller lookup -/

def callerDiagMsg : String := "Error retrieving caller info:"

def suppressionMsg (maxE : Nat) : String :=
  "Caller detection failed " ++ toString maxE ++
    " times. Suppressing further caller error messages."

/-- The stack walk of `getCallerInfo` (lines 599-607): the first frame
names the current file; scanning on, `callerFile` tracks each frame file
and the first frame from a different file supplies the line. -/
def walkFrames (currentFile cf : String) (cl : Nat) : List StackFrame → String × Nat
  | [] => (cf, cl)
  | fr :: rest =>
      if currentFile ≠ fr.fileName then (fr.fileName, fr.lineNumber)
      else walkFrames currentFile fr.fileName cl rest

/-- Everything `getCallerInfo` produces: the caller pair, the updated
consecutive-failure count, the diagnostics written to the error channel,
the process-global state on return, and the hook value in force during the
stack inspection. -/
structure CallerResult where
  callerFile : String
  callerLine : Nat
  newCount : Nat
  diags : List String
  g' : GState
  hookDuring : PrepareHook

/-- `getCallerInfo` (src/lib/logger.ts lines 582-626). `stack` is the
platform stack capture: `none` when the runtime gives no structured stack
(the shift call throws), `some []` when it is empty (shift yields undefined
and dereferencing throws); both run the catch block. The finally block
restores the hook captured on entry. -/
def getCallerInfo (g : GState) (count maxE : Nat)
    (stack : Option (List StackFrame)) : CallerResult :=
  let originalFunc := g.prepareStackTrace
  let gDuring : GState := { prepareStackTrace := PrepareHook.loggerHook }
  match stack with
  | some (first :: rest) =>
      let r := walkFrames first.fileName "unknown" 0 rest
      { callerFile := r.1, callerLine := r.2, newCount := 0, diags := [],
        g' := { gDuring with prepareStackTrace := originalFunc },
        hookDuring := gDuring.prepareStackTrace }
  | _ =>
      let c := count + 1
      let diags :=
        if c ≤ maxE then
          [callerDiagMsg] ++ (if c = maxE then [suppressionMsg maxE] else [])
        else []
      { callerFile := "unknown", callerLine := 0, newCount := c, diags := diags,
        g' := { gDuring with prepareStackTrace := originalFunc },
        hookDuring := gDuring.prepareStackTrace }

/-! ### Construction and validation -/

def validLevelNames : List String := ["silent", "error", "warn", "info", "debug"]

def joinedLevelNames : String := String.intercalate ", " validLevelNames

/-- The `level` check of `validateOptions` (lines 451-467): membership in
the fixed built-in list. -/
def checkLevelOpt : Option String → Except String Unit
  | none => .ok ()
  | some l =>
      if validLevelNames.contains l then .ok ()
      else .error ("Invalid log level: " ++ l ++ ". Valid levels are: " ++ joinedLevelNames)

/-- The `format` check (lines 470-479). -/
def checkFormatOpt : Option String → Except String Unit
  | none => .ok ()
  | some f =>
      if ["json", "simple"].contains f then .ok ()
      else .error ("Invalid format: " ++ f ++ ". Valid formats are: json, simple")

/-- The `time` check (lines 482-491). -/
def checkTimeOpt : Option String → Except String Unit
  | none => .ok ()
  | some t =>
      if ["long", "short"].contains t then .ok ()
      else .error ("Invalid time: " ++ t ++ ". Valid times are: long, short")

/-- The `callerLevel` check (lines 494-509): the same fixed list. -/
def checkCallerLevelOpt : Option String → Except String Unit
  | none => .ok ()
  | some c =>
      if validLevelNames.contains c then .ok ()
      else .error ("Invalid callerLevel: " ++ c ++ ". Valid levels are: " ++ joinedLevelNames)

/-- The `levels` entry check (lines 517-533): every supplied entry,
iterated in order, must map to a non-negative integer (the typeof-number
and integrality checks cannot fail on the integer-valued embedding). -/
def validateLevelEntries : List (String × Int) → Except String Unit
  | [] => .ok ()
  | (k, v) :: rest =>
      if v < 0 then
        .error ("Level value for '" ++ k ++ "' must be a non-negative integer")
      else validateLevelEntries rest

/-- Constructor options; `none` is an omitted key. The colours option is an
association list by type, so the runtime typeof-object check on it cannot
fail in the embedding. -/
structure LoggerOptions where
  level : Option String := none
  levels : Option (List (String × Int)) := none
  format : Option String := none
  time : Option String := none
  callerLevel : Option String := none
  colours : Option (List (String × String)) := none

/-- `validateOptions` (src/lib/logger.ts lines 450-534), checks in source
order; the first violation is the error surfaced. -/
def validateOptions (o : LoggerOptions) : Except String Unit :=
  checkLevelOpt o.level >>= fun _ =>
  checkFormatOpt o.format >>= fun _ =>
  checkTimeOpt o.time >>= fun _ =>
  checkCallerLevelOpt o.callerLevel >>= fun _ =>
  validateLevelEntries (o.levels.getD [])

/-- `Object.assign({}, base, over)` on association lists: base order kept,
overridden values replaced in place, new keys appended in their order. -/
def assocSet {α : Type} (l : List (String × α)) (k : String) (v : α) :
    List (String × α) :=
  if l.any (fun p => p.1 = k) then l.map (fun p => if p.1 = k then (k, v) else p)
  else l ++ [(k, v)]

def mergeAssoc {α : Type} (base over : List (String × α)) : List (String × α) :=
  over.foldl (fun acc p => assocSet acc p.1 p.2) base

def defaultLevels : List (String × Int) :=
  [("silent", -1), ("error", 0), ("warn", 1), ("info", 2), ("debug", 3)]

def defaultColours : List (String × String) :=
  [("error", "\x1b[91m"), ("warn", "\x1b[33m"), ("info", "\x1b[94m"),
   ("debug", "\x1b[37m"), ("reset", "\x1b[0m")]

/-- Logger instance state after construction. -/
structure Logger where
  level : String
  levels : List (String × Int)
  format : String
  time : String
  callerLevel : String
  colours : List (String × String)
  isRedirected : Bool
  callerErrorCount : Nat
  maxCallerErrors : Nat

/-- The constructor (src/lib/logger.ts lines 408-448): validate, then merge
defaults (an omitted option key defaults; the `||` defaulting coincides
with option-defaulting on every value that passes validation). -/
def mkLogger (isTTY : Bool) (o : LoggerOptions) : Except String Logger :=
  (validateOptions o).map fun _ =>
    { level := o.level.getD "info",
      levels := mergeAssoc defaultLevels (o.levels.getD []),
      format := o.format.getD "json",
      time := o.time.getD "short",
      callerLevel := o.callerLevel.getD "warn",
      colours := mergeAssoc defaultColours (o.colours.getD []),
      isRedirected := !isTTY,
      callerErrorCount := 0,
      maxCallerErrors := 5 }

/-! ### The level accessor and the log dispatcher -/

/-- The `level` accessor (src/lib/logger.ts lines 801-813): result and
post-state. No argument returns the current name; an argument present in
the active table is set and returned; an absent name throws and leaves the
state untouched. -/
def levelAccessor (lg : Logger) (arg : Option String) :
    (Except String String) × Logger :=
  match arg with
  | none => (.ok lg.level, lg)
  | some nl =>
      if lg.levels.any (fun p => p.1 = nl) then (.ok nl, { lg with level := nl })
      else (.error ("Invalid log level: " ++ nl), lg)

/-- `this.options.levels[name]`. -/
def jsLookup (l : List (String × Int)) (k : String) : Option Int :=
  (l.find? (fun p => p.1 = k)).map (fun p => p.2)

/-- A JavaScript `>` on possibly-undefined numbers: any comparison with
undefined is false. -/
def jsGtOpt : Option Int → Option Int → Bool
  | some a, some b => decide (a > b)
  | _, _ => false

/-- A JavaScript `<=` on possibly-undefined numbers. -/
def jsLeOpt : Option Int → Option Int → Bool
  | some a, some b => decide (a ≤ b)
  | _, _ => false

/-- `this.options.colours[name]` interpolated into a template literal:
undefined coerces to the text `undefined`. -/
def colourLookup (l : List (String × String)) (k : String) : String :=
  ((l.find? (fun p => p.1 = k)).map (fun p => p.2)).getD "undefined"

/-- A JavaScript `replace` with the plain string pattern `T`: only the
first occurrence is replaced. -/
def replaceFirstT : List Char → List Char
  | [] => []
  | c :: rest => if c = 'T' then ' ' :: rest else c :: replaceFirstT rest

/-- `now.toISOString().slice(0, 16).replace("T", " ")`: the first sixteen
code units, then the lone `T` swapped for a space. -/
def shortTime (iso : String) : String :=
  String.mk (replaceFirstT (iso.toList.take 16))

/-- Ambient platform inputs of one log call. -/
structure Env where
  nowISO : String
  pid : Nat
  hostname : String
  stack : Option (List StackFrame)
  g : GState

/-- The observable effects of one log call: lines written to standard
output, number of caller lookups performed, the record built (if any), and
the caller-lookup diagnostics written to the error channel. -/
structure LogOutcome where
  outputs : List String
  callerLookups : Nat
  entry : Option LogEntry
  diags : List String

/-- `log` (src/lib/logger.ts lines 628-712): gate, caller decision, record
build, fail-safe render, colour and write. Returns the outcome and the
updated logger state. -/
def logCall (lg : Logger) (env : Env) (reg : Registry) (lvl : String)
    (message : JSValue) (args : List JSValue) : LogOutcome × Logger :=
  if jsGtOpt (jsLookup lg.levels lvl) (jsLookup lg.levels lg.level) then
    ({ outputs := [], callerLookups := 0, entry := none, diags := [] }, lg)
  else
    let shouldIncludeCaller :=
      jsLeOpt (jsLookup lg.levels lvl) (jsLookup lg.levels lg.callerLevel)
    let cres :=
      if shouldIncludeCaller then
        some (getCallerInfo env.g lg.callerErrorCount lg.maxCallerErrors env.stack)
      else none
    let lg' :=
      match cres with
      | some r => { lg with callerErrorCount := r.newCount }
      | none => lg
    let time := if lg.time = "long" then env.nowISO else shortTime env.nowISO
    let entry : LogEntry :=
      { level := lvl, levelNumber := jsLookup lg.levels lvl, time := time,
        pid := env.pid, hostname := env.hostname, msg := format message args,
        callerFile := cres.map (fun r => r.callerFile),
        callerLine := cres.map (fun r => r.callerLine), extra := [] }
    let text := failSafeRender reg lg.format entry
    let colour := colourLookup lg.colours lvl
    let resetColour := colourLookup lg.colours "reset"
    let out := if lg.isRedirected then text else colour ++ text ++ resetColour
    ({ outputs := [out],
       callerLookups := if shouldIncludeCaller then 1 else 0,
       entry := some entry,
       diags := (cres.map (fun r => r.diags)).getD [] }, lg')

/-- `logger.error(...)` (line 727). -/
def Logger.emitError (lg : Logger) (env : Env) (reg : Registry)
    (message : JSValue) (args : List JSValue) : LogOutcome × Logger :=
  logCall lg env reg "error" message args

/-- `logger.warn(...)` (line 744). -/
def Logger.emitWarn (lg : Logger) (env : Env) (reg : Registry)
    (message : JSValue) (args : List JSValue) : LogOutcome × Logger :=
  logCall lg env reg "warn" message args

/-- `logger.info(...)` (line 761). -/
def Logger.emitInfo (lg : Logger) (env : Env) (reg : Registry)
    (message : JSValue) (args : List JSValue) : LogOutcome × Logger :=
  logCall lg env reg "info" message args

/-- `logger.debug(...)` (line 778). -/
def Logger.emitDebug (lg : Logger) (env : Env) (reg : Registry)
    (message : JSValue) (args : List JSValue) : LogOutcome × Logger :=
  logCall lg env reg "debug" message args

/-! ### Shared concrete instances used by witnesses -/

/-- The logger a default construction yields (output redirected). -/
def lg0 : Logger :=
  { level := "info", levels := defaultLevels, format := "json", time := "short",
    callerLevel := "warn", colours := defaultColours, isRedirected := true,
    callerErrorCount := 0, maxCallerErrors := 5 }

example : mkLogger false {} = .ok lg0 := rfl

/-- The default logger with the current level raised to debug. -/
def lgDebug : Logger := { lg0 with level := "debug" }

def g0 : GState := { prepareStackTrace := PrepareHook.undef }

/-- A concrete environment with a two-frame stack (the logger module, then
its caller). -/
def env0 : Env :=
  { nowISO := "2024-01-15T10:30:45.123Z", pid := 1234, hostname := "host",
    stack := some [{ fileName := "/app/logger.ts", lineNumber := 700 },
                   { fileName := "/app/main.ts", lineNumber := 42 }],
    g := g0 }

/-- The consecutive-failure count after n failing caller lookups starting
from a fresh instance. -/
def consecutiveFailCount : Nat → Nat
  | 0 => 0
  | n + 1 => (getCallerInfo g0 (consecutiveFailCount n) 5 none).newCount

/-! ### Helper lemmas -/

theorem consecutiveFailCount_eq (n : Nat) : consecutiveFailCount n = n := by
  induction n with
  | zero => rfl
  | succ m ih => simp [consecutiveFailCount, getCallerInfo, ih]

theorem any_assocSet {v : Int} (l : List (String × Int)) (k : String) :
    (assocSet l k v).any (fun p => p.1 = k) = true := by
  unfold assocSet
  by_cases h : l.any (fun p => p.1 = k)
  · rw [if_pos h]
    rcases List.any_eq_true.mp h with ⟨p, hp, hpk⟩
    refine List.any_eq_true.mpr ⟨(k, v), List.mem_map.mpr ⟨p, hp, ?_⟩, by simp⟩
    simp at hpk
    simp [hpk]
  · rw [if_neg h]
    simp [List.any_append]

/-! ### The claims -/

/-- C1. The claim says the final hand-built fallback emits the message
"with quotes escaped". The code's quote replacement substitutes each double
quote by a double quote (the replacement literal contains a useless escape),
so the message reaches the hand-built JSON-shaped string with its quotes
unescaped: at a record whose message is `say "hi"`, with the selected
formatter and the json fallback both throwing, the emitted string carries
the quote verbatim and differs from the escaped form the claim mandates. -/
theorem C1_minimal_fallback_quote_bug :
    failSafeRender
      { json := fun _ => FmtResult.thrown "json broken",
        simple := fun _ => FmtResult.thrown "boom" }
      "simple"
      { level := "info", levelNumber := some 2, time := "t", pid := 1,
        hostname := "h", msg := "say \"hi\"", callerFile := none,
        callerLine := none, extra := [] } =
      "\x7b\"level\":\"info\",\"msg\":\"say \"hi\"\",\"formatterError\":\"Formatter failed: boom\"\x7d" ∧
    quoteReplace "say \"hi\"" = "say \"hi\"" ∧
    failSafeRender
      { json := fun _ => FmtResult.thrown "json broken",
        simple := fun _ => FmtResult.thrown "boom" }
      "simple"
      { level := "info", levelNumber := some 2, time := "t", pid := 1,
        hostname := "h", msg := "say \"hi\"", callerFile := none,
        callerLine := none, extra := [] } ≠
      "\x7b\"level\":\"info\",\"msg\":\"say \\\"hi\\\"\",\"formatterError\":\"Formatter failed: boom\"\x7d" := by
  refine ⟨rfl, rfl, ?_⟩
  decide

/-- C2. The gate: when the call level's rank exceeds the current level's
rank, the call returns the empty outcome (no output, no record, no caller
lookup) and leaves the logger untouched; otherwise exactly one output line
is written and a record is built. -/
theorem C2_gate_behavior (lg : Logger) (env : Env) (reg : Registry)
    (L : String) (message : JSValue) (args : List JSValue) (rL rc : Int)
    (h1 : jsLookup lg.levels L = some rL)
    (h2 : jsLookup lg.levels lg.level = some rc) :
    (rc < rL →
      logCall lg env reg L message args =
        ({ outputs := [], callerLookups := 0, entry := none, diags := [] }, lg)) ∧
    (rL ≤ rc →
      (logCall lg env reg L message args).1.outputs.length = 1 ∧
      ((logCall lg env reg L message args).1.entry).isSome = true) := by
  constructor
  · intro hlt
    have hg : jsGtOpt (jsLookup lg.levels L) (jsLookup lg.levels lg.level) = true := by
      rw [h1, h2]; simp [jsGtOpt]; omega
    simp [logCall, hg]
  · intro hle
    have hg : jsGtOpt (jsLookup lg.levels L) (jsLookup lg.levels lg.level) = false := by
      rw [h1, h2]; simp [jsGtOpt]; omega
    constructor <;> simp [logCall, hg]

/-- C2 witness: on the default logger a debug call (rank 3 over current
rank 2) is discarded entirely. -/
theorem C2_gate_behavior_witness :
    logCall lg0 env0 builtinRegistry "debug" (vstr "m") [] =
      ({ outputs := [], callerLookups := 0, entry := none, diags := [] }, lg0) :=
  (C2_gate_behavior lg0 env0 builtinRegistry "debug" (vstr "m") [] 3 2 rfl rfl).1
    (by decide)

/-- C3. On a gate-passing call, the record carries caller file and line
exactly when rank(level) is at most rank(callerLevel); with the default
callerLevel warn (and level raised to debug so every call passes the gate),
error and warn calls attach caller info, info and debug calls omit it. -/
theorem C3_caller_attachment (lg : Logger) (env : Env) (reg : Registry)
    (L : String) (message : JSValue) (args : List JSValue) (rL rc rk : Int)
    (h1 : jsLookup lg.levels L = some rL)
    (h2 : jsLookup lg.levels lg.level = some rc)
    (h3 : jsLookup lg.levels lg.callerLevel = some rk)
    (hgate : rL ≤ rc) :
    ((logCall lg env reg L message args).1.entry.map
        (fun e => e.callerFile.isSome)) = some (decide (rL ≤ rk)) ∧
    ((logCall lg env reg L message args).1.entry.map
        (fun e => e.callerLine.isSome)) = some (decide (rL ≤ rk)) ∧
    ((lgDebug.emitError env0 builtinRegistry (vstr "m") []).1.entry.map
        (fun e => (e.callerFile.isSome, e.callerLine.isSome))) = some (true, true) ∧
    ((lgDebug.emitWarn env0 builtinRegistry (vstr "m") []).1.entry.map
        (fun e => (e.callerFile.isSome, e.callerLine.isSome))) = some (true, true) ∧
    ((lgDebug.emitInfo env0 builtinRegistry (vstr "m") []).1.entry.map
        (fun e => (e.callerFile.isSome, e.callerLine.isSome))) = some (false, false) ∧
    ((lgDebug.emitDebug env0 builtinRegistry (vstr "m") []).1.entry.map
        (fun e => (e.callerFile.isSome, e.callerLine.isSome))) = some (false, false) := by
  have hg : jsGtOpt (jsLookup lg.levels L) (jsLookup lg.levels lg.level) = false := by
    rw [h1, h2]; simp [jsGtOpt]; omega
  have hsi : jsLeOpt (jsLookup lg.levels L) (jsLookup lg.levels lg.callerLevel) =
      decide (rL ≤ rk) := by
    rw [h1, h3]
    simp [jsLeOpt]
  refine ⟨?_, ?_, by decide, by decide, by decide, by decide⟩ <;>
    by_cases hrk : rL ≤ rk <;>
      simp [logCall, hg, hsi, hrk]

/-- C3 witness: an error call on the debug-level default-caller logger
attaches the caller file. -/
theorem C3_caller_attachment_witness :
    ((logCall lgDebug env0 builtinRegistry "error" (vstr "m") []).1.entry.map
        (fun e => e.callerFile.isSome)) = some true := by
  have h := C3_caller_attachment lgDebug env0 builtinRegistry "error" (vstr "m") []
    0 3 1 rfl rfl rfl (by decide)
  simpa using h.1

/-- C4. The percent-percent rule of the interpolator: a `%%` occurrence
rewrites to `%%` itself when no extra arguments were supplied and to a
single `%` when at least one was, in both cases consuming no argument; a
non-`%%` specifier met when the arguments are exhausted stays as literal
text and consumes nothing; concrete end-to-end instances included. -/
theorem C4_percent_percent_rule (args : List JSValue) (rest : List Char) (i : Nat) :
    (scanFmt (ppOf args) args ('%' :: '%' :: rest) i =
      ((if args.length = 0 then "%%" else "%") ++
         (scanFmt (ppOf args) args rest i).1,
       (scanFmt (ppOf args) args rest i).2)) ∧
    (∀ c : Char, isSpecChar c = true → args.length ≤ i →
      scanFmt (ppOf args) args ('%' :: c :: rest) i =
        ("%" ++ String.singleton c ++ (scanFmt (ppOf args) args rest i).1,
         (scanFmt (ppOf args) args rest i).2)) ∧
    format (vstr "Progress: 50%% complete") [] = "Progress: 50%% complete" ∧
    format (vstr "a%%b%s") [vstr "x"] = "a%bx" ∧
    format (vstr "50%% of %s") [vstr "y"] = "50% of y" ∧
    format (vstr "Hello %s, you are %d years old") [vstr "John"] =
      "Hello John, you are %d years old" := by
  refine ⟨?_, ?_, by decide, by decide, by decide, by decide⟩
  · simp [scanFmt, ppOf]
  · intro c hc hlen
    simp [isSpecChar] at hc
    rcases hc with (((h | h) | h) | h) | h <;> subst h <;>
      simp [scanFmt, isSpecChar, hlen]

/-- C5 counterexample: with a non-string template, the code renders an
array argument as compact JSON (`[2,3]`), not as the bracket display form
(`[ 2, 3 ]`) the claim prescribes for the %s case, so the plain join does
not use the %s display rules. -/
theorem C5_plain_join_counterexample :
    format (vnum 1) [varr [vnum 2, vnum 3]] = "1 [2,3]" ∧
    String.intercalate " "
        (([vnum 1, varr [vnum 2, vnum 3]] : List JSValue).map displaySValue) =
      "1 [ 2, 3 ]" ∧
    format (vnum 1) [varr [vnum 2, vnum 3]] ≠
      String.intercalate " "
        (([vnum 1, varr [vnum 2, vnum 3]] : List JSValue).map displaySValue) := by
  refine ⟨rfl, rfl, ?_⟩
  decide

/-- C5 as amended: a non-string template joins the display forms of all
arguments with single spaces, where null renders as null, undefined as
undefined, objects and arrays as their compact JSON serialization (with
`[object Object]` on serialization failure) and other values as their plain
string form; trailing unconsumed arguments after a string template are
appended space-joined under the %s display rules (bracket form for arrays,
brace form with single-quoted string values for objects). -/
theorem C5_plain_join_amended (f : JSValue) (args : List JSValue)
    (hns : ∀ s, f ≠ vstr s) :
    format f args = String.intercalate " " ((f :: args).map plainJoinDisplay) ∧
    plainJoinDisplay vnull = "null" ∧
    plainJoinDisplay vundef = "undefined" ∧
    plainJoinDisplay (varr [vnum 2, vnum 3]) = "[2,3]" ∧
    plainJoinDisplay (vobj [("k", vstr "v")] false) = "\x7b\"k\":\"v\"\x7d" ∧
    plainJoinDisplay (vobj [("k", vstr "v")] true) = "[object Object]" ∧
    plainJoinDisplay (vbool true) = "true" ∧
    (∀ (t : String) (bargs : List JSValue),
      0 < (bargs.drop (scanFmt (ppOf bargs) bargs t.toList 0).2).length →
      format (vstr t) bargs =
        (scanFmt (ppOf bargs) bargs t.toList 0).1 ++ " " ++
          String.intercalate " "
            ((bargs.drop (scanFmt (ppOf bargs) bargs t.toList 0).2).map displaySValue)) ∧
    displaySValue vnull = "null" ∧
    displaySValue vundef = "undefined" ∧
    displaySValue (varr [vnum 2, vnum 3]) = "[ 2, 3 ]" ∧
    displaySValue (vobj [("k", vstr "v")] false) = "\x7b k: 'v' \x7d" := by
  refine ⟨?_, rfl, rfl, by decide, by decide, by decide, rfl, ?_, rfl, rfl, by decide, by decide⟩
  · cases f with
    | vstr s => exact absurd rfl (hns s)
    | vnull => simp [format]
    | vundef => simp [format]
    | vbool b => simp [format]
    | vnum n => simp [format]
    | varr xs => simp [format]
    | vobj kvs c => simp [format]
  · intro t bargs h
    simp only [format]
    rw [if_pos h]

/-- C5 witness: the amended plain-join equation at a concrete non-string
template. -/
theorem C5_plain_join_amended_witness :
    format (vnum 1) [vstr "a"] = "1 a" := by
  have h := C5_plain_join_amended (vnum 1) [vstr "a"]
    (fun s hs => JSValue.noConfusion hs)
  simpa using h.1

/-- C6 counterexample: the levels validation does not exclude the reserved
name silent; constructing with a levels option mapping silent to -1 fails
with the non-negative-integer error rather than succeeding. -/
theorem C6_silent_validation_counterexample :
    validateOptions { levels := some [("silent", -1)] } =
      .error "Level value for 'silent' must be a non-negative integer" ∧
    mkLogger false { levels := some [("silent", -1)] } =
      .error "Level value for 'silent' must be a non-negative integer" := by
  exact ⟨rfl, rfl⟩

/-- C6 as amended: construction-time validation requires every supplied
rank to be a non-negative integer with no exclusion for the reserved name
silent; a levels option mapping silent to -1 is therefore rejected, while
an all-non-negative mapping is accepted. -/
theorem C6_levels_validation_amended (entries : List (String × Int)) :
    (validateLevelEntries entries = .ok () ↔ ∀ p ∈ entries, 0 ≤ p.2) ∧
    validateOptions { levels := some [("silent", -1)] } =
      .error "Level value for 'silent' must be a non-negative integer" ∧
    mkLogger false { levels := some [("custom", 4)] } =
      .ok { lg0 with levels := defaultLevels ++ [("custom", 4)] } := by
  refine ⟨?_, rfl, rfl⟩
  induction entries with
  | nil => simp [validateLevelEntries]
  | cons p tl ih =>
      obtain ⟨k, v⟩ := p
      by_cases hv : v < 0
      · constructor
        · intro habs
          simp [validateLevelEntries, hv] at habs
        · intro hall
          have h0 := hall (k, v) (List.mem_cons_self _ _)
          simp at h0
          omega
      · have h0 : (0 : Int) ≤ v := by omega
        simp [validateLevelEntries, hv, ih, h0]

/-- C7 counterexample: the level option is checked against the fixed
built-in names, not the merged table: constructing with a custom levels
entry trace and level set to trace fails although trace is present in the
merged table. -/
theorem C7_custom_level_counterexample :
    validateOptions { level := some "trace", levels := some [("trace", 4)] } =
      .error "Invalid log level: trace. Valid levels are: silent, error, warn, info, debug" ∧
    (mergeAssoc defaultLevels [("trace", 4)]).any (fun p => p.1 = "trace") = true := by
  exact ⟨rfl, rfl⟩

/-- C7 as amended: construction validates the level option against the
fixed built-in names only, so any custom name is rejected at construction
even when the levels option defines it in the merged table; the runtime
level setter, in contrast, accepts any name present in the merged table,
custom names included. -/
theorem C7_level_option_amended (name : String) (k : Int)
    (hname : validLevelNames.contains name = false) :
    mkLogger false { level := some name, levels := some [(name, k)] } =
      .error ("Invalid log level: " ++ name ++ ". Valid levels are: " ++ joinedLevelNames) ∧
    (∀ lg : Logger, lg.levels.any (fun p => p.1 = name) = true →
      levelAccessor lg (some name) = (.ok name, { lg with level := name })) ∧
    (mergeAssoc defaultLevels [(name, k)]).any (fun p => p.1 = name) = true := by
  refine ⟨?_, ?_, ?_⟩
  · have hname2 : ¬ name ∈ validLevelNames := by simpa using hname
    simp [mkLogger, validateOptions, checkLevelOpt, hname2, Except.map, Bind.bind, Except.bind]
  · intro lg h
    simp [levelAccessor, h]
  · show (mergeAssoc defaultLevels [(name, k)]).any (fun p => p.1 = name) = true
    simp only [mergeAssoc, List.foldl]
    exact any_assocSet defaultLevels name

/-- C7 witness: constructing with levels extended by trace and level set to
trace fails with the explicit invalid-level error. -/
theorem C7_level_option_amended_witness :
    mkLogger false { level := some "trace", levels := some [("trace", 4)] } =
      .error ("Invalid log level: " ++ "trace" ++ ". Valid levels are: " ++ joinedLevelNames) :=
  (C7_level_option_amended "trace" 4 rfl).1

/-- C8. Over a run of consecutive caller-lookup failures from a fresh
instance, the k-th failure leaves the counter at k; each of the first four
failures reports one diagnostic, the fifth reports the diagnostic plus the
one-time suppression notice, the sixth and later report nothing; any
successful lookup resets the counter to zero. -/
theorem C8_caller_failure_reporting (k : Nat) (hk : 1 ≤ k) :
    ((getCallerInfo g0 (consecutiveFailCount (k - 1)) 5 none).newCount = k) ∧
    (k < 5 →
      (getCallerInfo g0 (consecutiveFailCount (k - 1)) 5 none).diags = [callerDiagMsg]) ∧
    (k = 5 →
      (getCallerInfo g0 (consecutiveFailCount (k - 1)) 5 none).diags =
        [callerDiagMsg, suppressionMsg 5]) ∧
    (6 ≤ k →
      (getCallerInfo g0 (consecutiveFailCount (k - 1)) 5 none).diags = []) ∧
    (∀ (count : Nat) (first : StackFrame) (rest : List StackFrame),
      (getCallerInfo g0 count 5 (some (first :: rest))).newCount = 0) := by
  have hc := consecutiveFailCount_eq (k - 1)
  have hsub : k - 1 + 1 = k := Nat.sub_add_cancel hk
  refine ⟨?_, ?_, ?_, ?_, ?_⟩
  · simp [getCallerInfo, hc, hsub]
  · intro h5
    have h1 : k ≤ 5 := by omega
    have h2 : ¬ k = 5 := by omega
    simp [getCallerInfo, hc, hsub, h1, h2]
  · intro h5
    subst h5
    simp [getCallerInfo, hc, hsub]
  · intro h6
    have h1 : ¬ k ≤ 5 := by omega
    simp [getCallerInfo, hc, hsub, h1]
  · intro count first rest
    simp [getCallerInfo]

/-- C8 witness: the fifth consecutive failure reports the diagnostic and
the suppression notice. -/
theorem C8_caller_failure_reporting_witness :
    (getCallerInfo g0 (consecutiveFailCount 4) 5 none).diags =
      [callerDiagMsg, suppressionMsg 5] :=
  (C8_caller_failure_reporting 5 (by decide)).2.2.1 rfl

/-- C9. The level accessor: a no-argument call returns the current level
name and changes nothing; a call with a name present in the active merged
table sets it and returns it; a call with an absent name yields the
explicit invalid-level error and leaves the state untouched. -/
theorem C9_level_accessor (lg : Logger) (nl : String) :
    (levelAccessor lg none = (.ok lg.level, lg)) ∧
    (lg.levels.any (fun p => p.1 = nl) = true →
      levelAccessor lg (some nl) = (.ok nl, { lg with level := nl })) ∧
    (lg.levels.any (fun p => p.1 = nl) = false →
      levelAccessor lg (some nl) = (.error ("Invalid log level: " ++ nl), lg)) := by
  refine ⟨rfl, ?_, ?_⟩
  · intro h
    simp [levelAccessor, h]
  · intro h
    simp [levelAccessor, h]

/-- C10. Whether the stack inspection succeeds or throws, getCallerInfo
restores the global Error.prepareStackTrace hook to exactly the value it
had on entry, having had the logger hook installed during the inspection. -/
theorem C10_prepare_hook_restored (g : GState) (count maxE : Nat)
    (stack : Option (List StackFrame)) :
    ((getCallerInfo g count maxE stack).g').prepareStackTrace = g.prepareStackTrace ∧
    (getCallerInfo g count maxE stack).hookDuring = PrepareHook.loggerHook := by
  cases stack with
  | none => exact ⟨rfl, rfl⟩
  | some frames =>
      cases frames with
      | nil => exact ⟨rfl, rfl⟩
      | cons first rest => exact ⟨rfl, rfl⟩

end DLogger
